import Mathlib

/-!
Shallow embedding of the hull-fouling simulation engine
(`src/engine/Simulation.ts`, full variant with fuel-cost tracking, and
`src/engine/VesselTypes.ts`).

Numbers are embedded as exact rationals.  The single non-rational
operation of the source, `Math.pow(x, 0.67)` (applied only to positive
arguments inside `computePenalties`), is abstracted as an explicit
function parameter `pw : ℚ → ℚ` threaded through every operation; no
other operation of the source is transcendental (`Math.pow(r, 3)` is an
exact cube).  Theorems that need facts about `pw` take them as explicit
hypotheses.
-/

set_option autoImplicit false

/-- Vessel catalog entry, mirroring the `VesselType` interface of
`VesselTypes.ts`. -/
structure VesselType where
  id : String
  name : String
  category : String
  referenceSpeed : ℚ
  baseFuelConsumption : ℚ
  hullLength : ℚ
  baseRoughness : ℚ
  foulingRate : ℚ
  description : String
deriving DecidableEq

/-- Catalog entry with id `yacht`. -/
def yacht : VesselType :=
  { id := "yacht", name := "Yacht", category := "Recreational",
    referenceSpeed := 10, baseFuelConsumption := 0.5, hullLength := 20,
    baseRoughness := 75, foulingRate := 0.4,
    description := "Small recreational motor/sailing yacht" }

/-- Catalog entry with id `coastal_freighter`. -/
def coastal_freighter : VesselType :=
  { id := "coastal_freighter", name := "Coastal Freighter", category := "General Cargo",
    referenceSpeed := 11, baseFuelConsumption := 15, hullLength := 100,
    baseRoughness := 100, foulingRate := 0.8,
    description := "Small coastal general cargo vessel (~5,000 DWT)" }

/-- Catalog entry with id `handysize_bulker`. -/
def handysize_bulker : VesselType :=
  { id := "handysize_bulker", name := "Handysize Bulker", category := "Bulk Carrier",
    referenceSpeed := 13, baseFuelConsumption := 25, hullLength := 180,
    baseRoughness := 100, foulingRate := 1.0,
    description := "Small bulk carrier (~30,000 DWT)" }

/-- Catalog entry with id `panamax_bulker`. -/
def panamax_bulker : VesselType :=
  { id := "panamax_bulker", name := "Panamax Bulker", category := "Bulk Carrier",
    referenceSpeed := 13.5, baseFuelConsumption := 35, hullLength := 225,
    baseRoughness := 100, foulingRate := 1.1,
    description := "Panamax bulk carrier (~75,000 DWT)" }

/-- Catalog entry with id `capesize_bulker`. -/
def capesize_bulker : VesselType :=
  { id := "capesize_bulker", name := "Capesize Bulker", category := "Bulk Carrier",
    referenceSpeed := 14.5, baseFuelConsumption := 55, hullLength := 300,
    baseRoughness := 120, foulingRate := 1.2,
    description := "Capesize bulk carrier (~180,000 DWT)" }

/-- Catalog entry with id `feeder_container`. -/
def feeder_container : VesselType :=
  { id := "feeder_container", name := "Feeder Container", category := "Container",
    referenceSpeed := 18, baseFuelConsumption := 40, hullLength := 160,
    baseRoughness := 100, foulingRate := 1.3,
    description := "Small feeder container ship (~1,000 TEU)" }

/-- Catalog entry with id `post_panamax_container`. -/
def post_panamax_container : VesselType :=
  { id := "post_panamax_container", name := "Post-Panamax Container", category := "Container",
    referenceSpeed := 22, baseFuelConsumption := 150, hullLength := 370,
    baseRoughness := 120, foulingRate := 1.5,
    description := "Large container ship (~15,000 TEU)" }

/-- Catalog entry with id `suezmax_tanker`. -/
def suezmax_tanker : VesselType :=
  { id := "suezmax_tanker", name := "Suezmax Tanker", category := "Tanker",
    referenceSpeed := 14, baseFuelConsumption := 60, hullLength := 275,
    baseRoughness := 120, foulingRate := 1.2,
    description := "Suezmax crude oil tanker (~130,000 DWT)" }

/-- Catalog entry with id `vlcc`. -/
def vlcc : VesselType :=
  { id := "vlcc", name := "VLCC", category := "Tanker",
    referenceSpeed := 15, baseFuelConsumption := 100, hullLength := 330,
    baseRoughness := 125, foulingRate := 1.3,
    description := "Very Large Crude Carrier (~300,000 DWT)" }

/-- The vessel catalog `VESSEL_TYPES`, in source order. -/
def VESSEL_TYPES : List VesselType :=
  [yacht, coastal_freighter, handysize_bulker, panamax_bulker, capesize_bulker,
   feeder_container, post_panamax_container, suezmax_tanker, vlcc]

/-- `DEFAULT_VESSEL = VESSEL_TYPES.find(v => v.id === 'panamax_bulker')!`; the
non-null assertion of the source is modelled by a `getD` fallback whose value
is irrelevant because the lookup succeeds (see `DEFAULT_VESSEL_eq`). -/
def DEFAULT_VESSEL : VesselType :=
  (VESSEL_TYPES.find? (fun v => v.id == "panamax_bulker")).getD yacht

/-- `SimulationConfig` record of `Simulation.ts`. -/
structure SimulationConfig where
  vessel : VesselType
  speedKnots : ℚ
  simSpeed : ℚ
  fuelPricePerTonne : ℚ
deriving DecidableEq

/-- `SimulationState` record of `Simulation.ts`. -/
@[ext] structure SimulationState where
  day : ℚ
  roughness : ℚ
  dragPenalty : ℚ
  fuelPenalty : ℚ
  dailyFuelTonnes : ℚ
  emissions : ℚ
  emissionsClean : ℚ
  emissionsPenalty : ℚ
  coatingHealth : ℚ
  config : SimulationConfig
  fuelCostClean : ℚ
  fuelCostPenalty : ℚ
  fuelCostTotal : ℚ
deriving DecidableEq

/-- HFO CO2 emission factor (tonnes CO2 per tonne fuel). -/
def CO2_FACTOR : ℚ := 3.114

/-- Default fuel price (USD per tonne of HFO). -/
def DEFAULT_FUEL_PRICE : ℚ := 500

/-- Speed exponent for fuel/drag penalty scaling (cube law approximation). -/
def SPEED_EXPONENT : ℕ := 3

/-- Result record of `computePenalties`. -/
structure Penalties where
  dragPenalty : ℚ
  fuelPenalty : ℚ
  cleanFuelTonnes : ℚ
deriving DecidableEq

/-- `computePenalties` of `Simulation.ts`: drag / fuel penalty from hull
roughness (empirical power law, floored at 0) plus the clean-hull fuel rate
(cube law).  `pw` embeds `Math.pow(x, 0.67)`. -/
def computePenalties (pw : ℚ → ℚ) (roughness : ℚ) (vessel : VesselType)
    (speedKnots : ℚ) : Penalties :=
  let ahr0 := vessel.baseRoughness
  let deltaAHR := max 0 (roughness - ahr0)
  let roughnessPenaltyPct : ℚ := if 0 < deltaAHR then 0.5 * pw deltaAHR else 0
  let speedRatio := speedKnots / vessel.referenceSpeed
  let cleanFuelTonnes := vessel.baseFuelConsumption * speedRatio ^ SPEED_EXPONENT
  { dragPenalty := max 0 roughnessPenaltyPct
    fuelPenalty := max 0 roughnessPenaltyPct
    cleanFuelTonnes := cleanFuelTonnes }

/-- A partial `SimulationConfig` (TypeScript `Partial<SimulationConfig>`):
every field optional. -/
structure PartialConfig where
  vessel : Option VesselType := none
  speedKnots : Option ℚ := none
  simSpeed : Option ℚ := none
  fuelPricePerTonne : Option ℚ := none
deriving DecidableEq

/-- Spread-merge `{ ...base, ...p }`: fields present in `p` override `base`. -/
def mergeConfig (base : SimulationConfig) (p : PartialConfig) : SimulationConfig :=
  { vessel := p.vessel.getD base.vessel
    speedKnots := p.speedKnots.getD base.speedKnots
    simSpeed := p.simSpeed.getD base.simSpeed
    fuelPricePerTonne := p.fuelPricePerTonne.getD base.fuelPricePerTonne }

/-- The `defaultConfig` built inside the constructor. -/
def defaultConfig : SimulationConfig :=
  { vessel := DEFAULT_VESSEL
    speedKnots := DEFAULT_VESSEL.referenceSpeed
    simSpeed := 1
    fuelPricePerTonne := DEFAULT_FUEL_PRICE }

/-- `Simulation.buildInitialState`. -/
def buildInitialState (pw : ℚ → ℚ) (config : SimulationConfig) : SimulationState :=
  let p := computePenalties pw config.vessel.baseRoughness config.vessel config.speedKnots
  let dailyFuel := p.cleanFuelTonnes * (1 + p.fuelPenalty / 100)
  { day := 0
    roughness := config.vessel.baseRoughness
    dragPenalty := p.dragPenalty
    fuelPenalty := p.fuelPenalty
    dailyFuelTonnes := dailyFuel
    emissions := 0
    emissionsClean := 0
    emissionsPenalty := 0
    coatingHealth := 100
    config := config
    fuelCostClean := 0
    fuelCostPenalty := 0
    fuelCostTotal := 0 }

/-- The `Simulation` constructor: merge the overrides onto the default
configuration and build the initial state. -/
def mkSimulation (pw : ℚ → ℚ) (config : PartialConfig) : SimulationState :=
  buildInitialState pw (mergeConfig defaultConfig config)

/-- `Simulation.updateConfig`. -/
def updateConfig (pw : ℚ → ℚ) (s : SimulationState) (newConfig : PartialConfig) :
    SimulationState :=
  let config := mergeConfig s.config newConfig
  let p := computePenalties pw s.roughness config.vessel config.speedKnots
  let dailyFuelTonnes := p.cleanFuelTonnes * (1 + p.fuelPenalty / 100)
  { s with
    config := config
    dragPenalty := p.dragPenalty
    fuelPenalty := p.fuelPenalty
    dailyFuelTonnes := dailyFuelTonnes }

/-- `Simulation.reset`. -/
def reset (pw : ℚ → ℚ) (s : SimulationState) : SimulationState :=
  buildInitialState pw s.config

/-- `Simulation.tick`: advance the simulation by `deltaSeconds` real seconds. -/
def tick (pw : ℚ → ℚ) (s : SimulationState) (deltaSeconds : ℚ) : SimulationState :=
  let config := s.config
  let vessel := config.vessel
  let speedKnots := config.speedKnots
  let simSpeed := config.simSpeed
  let fuelPricePerTonne := config.fuelPricePerTonne
  let simDays := deltaSeconds / 86400 * simSpeed * 86400
  let coatingFactor := 1 + (1 - s.coatingHealth / 100) * 0.5
  let newRoughness := s.roughness + vessel.foulingRate * simDays * coatingFactor
  let newCoatingHealth := max 0 (s.coatingHealth - 0.05 * simDays)
  let p := computePenalties pw newRoughness vessel speedKnots
  let dailyFuelTonnes := p.cleanFuelTonnes * (1 + p.fuelPenalty / 100)
  let penaltyFuelTonnes := dailyFuelTonnes - p.cleanFuelTonnes
  let stepCleanEmissions := p.cleanFuelTonnes * CO2_FACTOR * simDays
  let stepPenaltyEmissions := penaltyFuelTonnes * CO2_FACTOR * simDays
  let stepCleanCost := p.cleanFuelTonnes * fuelPricePerTonne * simDays
  let stepPenaltyCost := penaltyFuelTonnes * fuelPricePerTonne * simDays
  { s with
    day := s.day + simDays
    roughness := newRoughness
    coatingHealth := newCoatingHealth
    dragPenalty := p.dragPenalty
    fuelPenalty := p.fuelPenalty
    dailyFuelTonnes := dailyFuelTonnes
    emissions := s.emissions + stepCleanEmissions + stepPenaltyEmissions
    emissionsClean := s.emissionsClean + stepCleanEmissions
    emissionsPenalty := s.emissionsPenalty + stepPenaltyEmissions
    fuelCostClean := s.fuelCostClean + stepCleanCost
    fuelCostPenalty := s.fuelCostPenalty + stepPenaltyCost
    fuelCostTotal := s.fuelCostTotal + stepCleanCost + stepPenaltyCost }

/-- One externally visible engine operation. -/
inductive Op where
  | advance (deltaSeconds : ℚ)
  | reconfigure (p : PartialConfig)
  | reset
deriving DecidableEq

/-- Apply one operation. -/
def applyOp (pw : ℚ → ℚ) (s : SimulationState) : Op → SimulationState
  | Op.advance d => tick pw s d
  | Op.reconfigure p => updateConfig pw s p
  | Op.reset => reset pw s

/-- Run a finite sequence of operations from a state. -/
def runOps (pw : ℚ → ℚ) (s : SimulationState) : List Op → SimulationState
  | [] => s
  | op :: ops => runOps pw (applyOp pw s op) ops

/-- The sequence of states visited when advancing by each delta in turn
(the seed state first). -/
def traj (pw : ℚ → ℚ) (s : SimulationState) : List ℚ → List SimulationState
  | [] => [s]
  | d :: ds => s :: traj pw (tick pw s d) ds

/-- Simulated days elapsed by a `tick` of `d` real seconds from state `s`. -/
def simDays (s : SimulationState) (d : ℚ) : ℚ :=
  d / 86400 * s.config.simSpeed * 86400

/-- Roughness after a `tick` of `d` real seconds from state `s`. -/
def tickRoughness (s : SimulationState) (d : ℚ) : ℚ :=
  s.roughness + s.config.vessel.foulingRate * simDays s d * (1 + (1 - s.coatingHealth / 100) * 0.5)

/-- Penalties recomputed by a `tick` of `d` real seconds from state `s`. -/
def tickPen (pw : ℚ → ℚ) (s : SimulationState) (d : ℚ) : Penalties :=
  computePenalties pw (tickRoughness s d) s.config.vessel s.config.speedKnots

/-- Daily fuel tonnage after a `tick` of `d` real seconds from state `s`. -/
def tickDailyFuel (pw : ℚ → ℚ) (s : SimulationState) (d : ℚ) : ℚ :=
  (tickPen pw s d).cleanFuelTonnes * (1 + (tickPen pw s d).fuelPenalty / 100)

/-- Pointwise ordering between two observed states: the fields the spec calls
monotone do not move backwards (`coatingHealth` is non-increasing, every other
listed field non-decreasing). -/
def StateLE (a b : SimulationState) : Prop :=
  a.roughness ≤ b.roughness ∧ b.coatingHealth ≤ a.coatingHealth ∧
  a.day ≤ b.day ∧ a.emissions ≤ b.emissions ∧ a.emissionsClean ≤ b.emissionsClean ∧
  a.emissionsPenalty ≤ b.emissionsPenalty ∧ a.fuelCostClean ≤ b.fuelCostClean ∧
  a.fuelCostPenalty ≤ b.fuelCostPenalty ∧ a.fuelCostTotal ≤ b.fuelCostTotal

instance (a b : SimulationState) : Decidable (StateLE a b) := by
  unfold StateLE; infer_instance

/-- Sign conditions on a configuration under which a `tick` with non-negative
elapsed seconds moves every cumulative field forwards. -/
def GoodCfg (c : SimulationConfig) : Prop :=
  0 ≤ c.vessel.foulingRate ∧ 0 < c.vessel.referenceSpeed ∧
  0 ≤ c.vessel.baseFuelConsumption ∧ 0 ≤ c.speedKnots ∧
  0 ≤ c.simSpeed ∧ 0 ≤ c.fuelPricePerTonne

/-- The instantaneous read-out fields of a state agree with the penalty model
applied to its own roughness and configuration, and the coating health is
non-negative.  Every state the engine ever exposes satisfies this. -/
def Consistent (pw : ℚ → ℚ) (s : SimulationState) : Prop :=
  0 ≤ s.coatingHealth ∧
  s.dragPenalty
    = (computePenalties pw s.roughness s.config.vessel s.config.speedKnots).dragPenalty ∧
  s.fuelPenalty
    = (computePenalties pw s.roughness s.config.vessel s.config.speedKnots).fuelPenalty ∧
  s.dailyFuelTonnes
    = (computePenalties pw s.roughness s.config.vessel s.config.speedKnots).cleanFuelTonnes
      * (1 + (computePenalties pw s.roughness s.config.vessel s.config.speedKnots).fuelPenalty / 100)

/-- The two additive break-down invariants of the cumulative counters. -/
def AddInv (s : SimulationState) : Prop :=
  s.emissions = s.emissionsClean + s.emissionsPenalty ∧
  s.fuelCostTotal = s.fuelCostClean + s.fuelCostPenalty

theorem DEFAULT_VESSEL_eq : DEFAULT_VESSEL = panamax_bulker := rfl

theorem tick_config (pw : ℚ → ℚ) (s : SimulationState) (d : ℚ) :
    (tick pw s d).config = s.config := rfl

theorem tick_day (pw : ℚ → ℚ) (s : SimulationState) (d : ℚ) :
    (tick pw s d).day = s.day + simDays s d := rfl

theorem tick_roughness (pw : ℚ → ℚ) (s : SimulationState) (d : ℚ) :
    (tick pw s d).roughness = tickRoughness s d := rfl

theorem tick_coatingHealth (pw : ℚ → ℚ) (s : SimulationState) (d : ℚ) :
    (tick pw s d).coatingHealth = max 0 (s.coatingHealth - 0.05 * simDays s d) := rfl

theorem tick_dragPenalty (pw : ℚ → ℚ) (s : SimulationState) (d : ℚ) :
    (tick pw s d).dragPenalty = (tickPen pw s d).dragPenalty := rfl

theorem tick_fuelPenalty (pw : ℚ → ℚ) (s : SimulationState) (d : ℚ) :
    (tick pw s d).fuelPenalty = (tickPen pw s d).fuelPenalty := rfl

theorem tick_dailyFuelTonnes (pw : ℚ → ℚ) (s : SimulationState) (d : ℚ) :
    (tick pw s d).dailyFuelTonnes = tickDailyFuel pw s d := rfl

theorem tick_emissions (pw : ℚ → ℚ) (s : SimulationState) (d : ℚ) :
    (tick pw s d).emissions = s.emissions
      + (tickPen pw s d).cleanFuelTonnes * CO2_FACTOR * simDays s d
      + (tickDailyFuel pw s d - (tickPen pw s d).cleanFuelTonnes) * CO2_FACTOR * simDays s d := rfl

theorem tick_emissionsClean (pw : ℚ → ℚ) (s : SimulationState) (d : ℚ) :
    (tick pw s d).emissionsClean = s.emissionsClean
      + (tickPen pw s d).cleanFuelTonnes * CO2_FACTOR * simDays s d := rfl

theorem tick_emissionsPenalty (pw : ℚ → ℚ) (s : SimulationState) (d : ℚ) :
    (tick pw s d).emissionsPenalty = s.emissionsPenalty
      + (tickDailyFuel pw s d - (tickPen pw s d).cleanFuelTonnes) * CO2_FACTOR * simDays s d := rfl

theorem tick_fuelCostClean (pw : ℚ → ℚ) (s : SimulationState) (d : ℚ) :
    (tick pw s d).fuelCostClean = s.fuelCostClean
      + (tickPen pw s d).cleanFuelTonnes * s.config.fuelPricePerTonne * simDays s d := rfl

theorem tick_fuelCostPenalty (pw : ℚ → ℚ) (s : SimulationState) (d : ℚ) :
    (tick pw s d).fuelCostPenalty = s.fuelCostPenalty
      + (tickDailyFuel pw s d - (tickPen pw s d).cleanFuelTonnes) * s.config.fuelPricePerTonne * simDays s d := rfl

theorem tick_fuelCostTotal (pw : ℚ → ℚ) (s : SimulationState) (d : ℚ) :
    (tick pw s d).fuelCostTotal = s.fuelCostTotal
      + (tickPen pw s d).cleanFuelTonnes * s.config.fuelPricePerTonne * simDays s d
      + (tickDailyFuel pw s d - (tickPen pw s d).cleanFuelTonnes) * s.config.fuelPricePerTonne * simDays s d := rfl

theorem computePenalties_dragPenalty (pw : ℚ → ℚ) (r : ℚ) (v : VesselType) (sp : ℚ) :
    (computePenalties pw r v sp).dragPenalty
      = max 0 (if 0 < max 0 (r - v.baseRoughness) then 0.5 * pw (max 0 (r - v.baseRoughness)) else 0) := rfl

theorem computePenalties_fuelPenalty (pw : ℚ → ℚ) (r : ℚ) (v : VesselType) (sp : ℚ) :
    (computePenalties pw r v sp).fuelPenalty
      = max 0 (if 0 < max 0 (r - v.baseRoughness) then 0.5 * pw (max 0 (r - v.baseRoughness)) else 0) := rfl

theorem computePenalties_cleanFuelTonnes (pw : ℚ → ℚ) (r : ℚ) (v : VesselType) (sp : ℚ) :
    (computePenalties pw r v sp).cleanFuelTonnes
      = v.baseFuelConsumption * (sp / v.referenceSpeed) ^ 3 := rfl

/-! ### Simple sign facts -/

theorem dragPenalty_nonneg (pw : ℚ → ℚ) (r : ℚ) (v : VesselType) (sp : ℚ) :
    0 ≤ (computePenalties pw r v sp).dragPenalty := by
  rw [computePenalties_dragPenalty]; exact le_max_left _ _

theorem fuelPenalty_nonneg (pw : ℚ → ℚ) (r : ℚ) (v : VesselType) (sp : ℚ) :
    0 ≤ (computePenalties pw r v sp).fuelPenalty := by
  rw [computePenalties_fuelPenalty]; exact le_max_left _ _

theorem cleanFuelTonnes_nonneg (pw : ℚ → ℚ) (r : ℚ) (v : VesselType) (sp : ℚ)
    (hb : 0 ≤ v.baseFuelConsumption) (hrs : 0 ≤ v.referenceSpeed) (hsp : 0 ≤ sp) :
    0 ≤ (computePenalties pw r v sp).cleanFuelTonnes := by
  rw [computePenalties_cleanFuelTonnes]
  exact mul_nonneg hb (pow_nonneg (div_nonneg hsp hrs) 3)

theorem simDays_nonneg (s : SimulationState) (d : ℚ) (hd : 0 ≤ d)
    (hm : 0 ≤ s.config.simSpeed) : 0 ≤ simDays s d :=
  mul_nonneg (mul_nonneg (div_nonneg hd (by norm_num)) hm) (by norm_num)

theorem simDays_eq (s : SimulationState) (d : ℚ) :
    simDays s d = d * s.config.simSpeed := by
  rw [simDays]; field_simp

theorem mem_VESSEL_TYPES_pos (v : VesselType) (hv : v ∈ VESSEL_TYPES) :
    0 < v.referenceSpeed ∧ 0 < v.hullLength ∧ 0 < v.baseFuelConsumption ∧
    0 < v.baseRoughness ∧ 0 ≤ v.foulingRate := by
  simp only [VESSEL_TYPES, List.mem_cons, List.not_mem_nil, or_false] at hv
  rcases hv with h | h | h | h | h | h | h | h | h <;> subst h <;>
    norm_num [yacht, coastal_freighter, handysize_bulker, panamax_bulker,
      capesize_bulker, feeder_container, post_panamax_container, suezmax_tanker, vlcc]

theorem tick_mono (pw : ℚ → ℚ) (s : SimulationState) (d : ℚ)
    (hg : GoodCfg s.config) (h0 : 0 ≤ s.coatingHealth) (h1 : s.coatingHealth ≤ 100)
    (hd : 0 ≤ d) : StateLE s (tick pw s d) := by
  obtain ⟨hfr, hrs, hbf, hsp, hm, hfp⟩ := hg
  have hsd : 0 ≤ simDays s d := simDays_nonneg s d hd hm
  have hcf : (0:ℚ) ≤ 1 + (1 - s.coatingHealth / 100) * 0.5 := by linarith
  have hclean : 0 ≤ (tickPen pw s d).cleanFuelTonnes :=
    cleanFuelTonnes_nonneg pw (tickRoughness s d) s.config.vessel s.config.speedKnots
      hbf hrs.le hsp
  have hfpen : 0 ≤ (tickPen pw s d).fuelPenalty :=
    fuelPenalty_nonneg pw (tickRoughness s d) s.config.vessel s.config.speedKnots
  have hpenfuel : 0 ≤ tickDailyFuel pw s d - (tickPen pw s d).cleanFuelTonnes := by
    rw [tickDailyFuel]; nlinarith [mul_nonneg hclean hfpen]
  have hco2 : (0:ℚ) ≤ CO2_FACTOR := by norm_num [CO2_FACTOR]
  have hec : 0 ≤ (tickPen pw s d).cleanFuelTonnes * CO2_FACTOR * simDays s d :=
    mul_nonneg (mul_nonneg hclean hco2) hsd
  have hep : 0 ≤ (tickDailyFuel pw s d - (tickPen pw s d).cleanFuelTonnes) * CO2_FACTOR * simDays s d :=
    mul_nonneg (mul_nonneg hpenfuel hco2) hsd
  have hcc : 0 ≤ (tickPen pw s d).cleanFuelTonnes * s.config.fuelPricePerTonne * simDays s d :=
    mul_nonneg (mul_nonneg hclean hfp) hsd
  have hcp : 0 ≤ (tickDailyFuel pw s d - (tickPen pw s d).cleanFuelTonnes) * s.config.fuelPricePerTonne * simDays s d :=
    mul_nonneg (mul_nonneg hpenfuel hfp) hsd
  refine ⟨?_, ?_, ?_, ?_, ?_, ?_, ?_, ?_, ?_⟩
  · rw [tick_roughness, tickRoughness]
    nlinarith [mul_nonneg (mul_nonneg hfr hsd) hcf]
  · rw [tick_coatingHealth]
    exact max_le h0 (by linarith)
  · rw [tick_day]; linarith
  · rw [tick_emissions]; linarith
  · rw [tick_emissionsClean]; linarith
  · rw [tick_emissionsPenalty]; linarith
  · rw [tick_fuelCostClean]; linarith
  · rw [tick_fuelCostPenalty]; linarith
  · rw [tick_fuelCostTotal]; linarith

theorem tick_coatingHealth_bounds (pw : ℚ → ℚ) (s : SimulationState) (d : ℚ)
    (h0 : 0 ≤ s.coatingHealth) (h1 : s.coatingHealth ≤ 100) (hd : 0 ≤ d)
    (hm : 0 ≤ s.config.simSpeed) :
    0 ≤ (tick pw s d).coatingHealth ∧ (tick pw s d).coatingHealth ≤ 100 := by
  have hsd := simDays_nonneg s d hd hm
  rw [tick_coatingHealth]
  exact ⟨le_max_left _ _, max_le (by norm_num) (by linarith)⟩

theorem traj_head (pw : ℚ → ℚ) (s : SimulationState) (ds : List ℚ) :
    (traj pw s ds).head? = some s := by cases ds <;> rfl

theorem traj_chain (pw : ℚ → ℚ) (s : SimulationState) (ds : List ℚ)
    (hg : GoodCfg s.config) (h0 : 0 ≤ s.coatingHealth) (h1 : s.coatingHealth ≤ 100)
    (hd : ∀ d ∈ ds, 0 ≤ d) :
    List.Chain' StateLE (traj pw s ds) ∧
    ∀ t ∈ traj pw s ds, 0 ≤ t.coatingHealth ∧ t.coatingHealth ≤ 100 := by
  induction ds generalizing s with
  | nil =>
    refine ⟨List.chain'_singleton s, ?_⟩
    intro t ht
    simp only [traj, List.mem_singleton] at ht
    subst ht; exact ⟨h0, h1⟩
  | cons d ds ih =>
    have hd0 : 0 ≤ d := hd d (List.mem_cons_self d ds)
    have hds : ∀ x ∈ ds, 0 ≤ x := fun x hx => hd x (List.mem_cons_of_mem d hx)
    have hg' : GoodCfg (tick pw s d).config := by rw [tick_config]; exact hg
    have hb := tick_coatingHealth_bounds pw s d h0 h1 hd0 hg.2.2.2.2.1
    obtain ⟨ihc, ihm⟩ := ih (tick pw s d) hg' hb.1 hb.2 hds
    constructor
    · simp only [traj]
      rw [List.chain'_cons']
      refine ⟨?_, ihc⟩
      intro b hb'
      rw [traj_head, Option.mem_some_iff] at hb'
      subst hb'
      exact tick_mono pw s d hg h0 h1 hd0
    · intro t ht
      simp only [traj, List.mem_cons] at ht
      rcases ht with h | h
      · subst h; exact ⟨h0, h1⟩
      · exact ihm t h

theorem consistent_buildInitialState (pw : ℚ → ℚ) (cfg : SimulationConfig) :
    Consistent pw (buildInitialState pw cfg) :=
  ⟨by show (0:ℚ) ≤ 100; norm_num, rfl, rfl, rfl⟩

theorem consistent_tick (pw : ℚ → ℚ) (s : SimulationState) (d : ℚ) :
    Consistent pw (tick pw s d) :=
  ⟨by rw [tick_coatingHealth]; exact le_max_left _ _, rfl, rfl, rfl⟩

theorem consistent_updateConfig (pw : ℚ → ℚ) (s : SimulationState) (p : PartialConfig)
    (h : Consistent pw s) : Consistent pw (updateConfig pw s p) :=
  ⟨h.1, rfl, rfl, rfl⟩

theorem consistent_reset (pw : ℚ → ℚ) (s : SimulationState) :
    Consistent pw (reset pw s) :=
  consistent_buildInitialState pw s.config

theorem consistent_applyOp (pw : ℚ → ℚ) (s : SimulationState) (op : Op)
    (h : Consistent pw s) : Consistent pw (applyOp pw s op) := by
  cases op with
  | advance d => exact consistent_tick pw s d
  | reconfigure p => exact consistent_updateConfig pw s p h
  | reset => exact consistent_reset pw s

theorem consistent_runOps (pw : ℚ → ℚ) (ops : List Op) (s : SimulationState)
    (h : Consistent pw s) : Consistent pw (runOps pw s ops) := by
  induction ops generalizing s with
  | nil => exact h
  | cons op ops ih => exact ih _ (consistent_applyOp pw s op h)

theorem addInv_buildInitialState (pw : ℚ → ℚ) (cfg : SimulationConfig) :
    AddInv (buildInitialState pw cfg) :=
  ⟨by show (0:ℚ) = 0 + 0; norm_num, by show (0:ℚ) = 0 + 0; norm_num⟩

theorem addInv_tick (pw : ℚ → ℚ) (s : SimulationState) (d : ℚ)
    (h : AddInv s) : AddInv (tick pw s d) := by
  obtain ⟨h1, h2⟩ := h
  constructor
  · rw [tick_emissions, tick_emissionsClean, tick_emissionsPenalty]; linarith
  · rw [tick_fuelCostTotal, tick_fuelCostClean, tick_fuelCostPenalty]; linarith

theorem addInv_updateConfig (pw : ℚ → ℚ) (s : SimulationState) (p : PartialConfig)
    (h : AddInv s) : AddInv (updateConfig pw s p) :=
  ⟨h.1, h.2⟩

theorem addInv_applyOp (pw : ℚ → ℚ) (s : SimulationState) (op : Op)
    (h : AddInv s) : AddInv (applyOp pw s op) := by
  cases op with
  | advance d => exact addInv_tick pw s d h
  | reconfigure p => exact addInv_updateConfig pw s p h
  | reset => exact addInv_buildInitialState pw s.config

theorem addInv_runOps (pw : ℚ → ℚ) (ops : List Op) (s : SimulationState)
    (h : AddInv s) : AddInv (runOps pw s ops) := by
  induction ops generalizing s with
  | nil => exact h
  | cons op ops ih => exact ih _ (addInv_applyOp pw s op h)

theorem tickRoughness_zero (s : SimulationState) : tickRoughness s 0 = s.roughness := by
  rw [tickRoughness, simDays_eq]; ring

theorem tick_zero (pw : ℚ → ℚ) (s : SimulationState) (hc : Consistent pw s) :
    tick pw s 0 = s := by
  obtain ⟨h0, hdp, hfpe, hdf⟩ := hc
  have hsd : simDays s 0 = 0 := by rw [simDays_eq]; ring
  have hpen : tickPen pw s 0
      = computePenalties pw s.roughness s.config.vessel s.config.speedKnots := by
    rw [tickPen, tickRoughness_zero]
  refine SimulationState.ext ?_ ?_ ?_ ?_ ?_ ?_ ?_ ?_ ?_ ?_ ?_ ?_ ?_
  · rw [tick_day, hsd]; ring
  · rw [tick_roughness, tickRoughness_zero]
  · rw [tick_dragPenalty, hpen]; exact hdp.symm
  · rw [tick_fuelPenalty, hpen]; exact hfpe.symm
  · rw [tick_dailyFuelTonnes, tickDailyFuel, hpen]; exact hdf.symm
  · rw [tick_emissions, hsd]; ring
  · rw [tick_emissionsClean, hsd]; ring
  · rw [tick_emissionsPenalty, hsd]; ring
  · rw [tick_coatingHealth, hsd]
    have h : s.coatingHealth - 0.05 * 0 = s.coatingHealth := by ring
    rw [h]
    exact max_eq_right h0
  · rfl
  · rw [tick_fuelCostClean, hsd]; ring
  · rw [tick_fuelCostPenalty, hsd]; ring
  · rw [tick_fuelCostTotal, hsd]; ring

/-- Claim C3: in every state reachable from construction by any sequence of
advance, reconfigure and reset operations, `emissions` equals
`emissionsClean + emissionsPenalty` and `fuelCostTotal` equals
`fuelCostClean + fuelCostPenalty`, exactly. -/
theorem c3_additive_invariants (pw : ℚ → ℚ) (p : PartialConfig) (ops : List Op) :
    (runOps pw (mkSimulation pw p) ops).emissions
      = (runOps pw (mkSimulation pw p) ops).emissionsClean
        + (runOps pw (mkSimulation pw p) ops).emissionsPenalty ∧
    (runOps pw (mkSimulation pw p) ops).fuelCostTotal
      = (runOps pw (mkSimulation pw p) ops).fuelCostClean
        + (runOps pw (mkSimulation pw p) ops).fuelCostPenalty :=
  addInv_runOps pw ops _ (addInv_buildInitialState pw _)

/-- Claim C4: `updateConfig` leaves `day`, `roughness`, `coatingHealth` and all
cumulative counters unchanged; only `config`, `dragPenalty`, `fuelPenalty` and
`dailyFuelTonnes` change, and the new instantaneous fields are the penalty
model evaluated at the pre-call roughness and the merged new configuration. -/
theorem c4_updateConfig_frame (pw : ℚ → ℚ) (s : SimulationState) (p : PartialConfig) :
    (updateConfig pw s p).day = s.day ∧
    (updateConfig pw s p).roughness = s.roughness ∧
    (updateConfig pw s p).coatingHealth = s.coatingHealth ∧
    (updateConfig pw s p).emissions = s.emissions ∧
    (updateConfig pw s p).emissionsClean = s.emissionsClean ∧
    (updateConfig pw s p).emissionsPenalty = s.emissionsPenalty ∧
    (updateConfig pw s p).fuelCostClean = s.fuelCostClean ∧
    (updateConfig pw s p).fuelCostPenalty = s.fuelCostPenalty ∧
    (updateConfig pw s p).fuelCostTotal = s.fuelCostTotal ∧
    (updateConfig pw s p).config = mergeConfig s.config p ∧
    (updateConfig pw s p).dragPenalty
      = (computePenalties pw s.roughness (mergeConfig s.config p).vessel
          (mergeConfig s.config p).speedKnots).dragPenalty ∧
    (updateConfig pw s p).fuelPenalty
      = (computePenalties pw s.roughness (mergeConfig s.config p).vessel
          (mergeConfig s.config p).speedKnots).fuelPenalty ∧
    (updateConfig pw s p).dailyFuelTonnes
      = (computePenalties pw s.roughness (mergeConfig s.config p).vessel
          (mergeConfig s.config p).speedKnots).cleanFuelTonnes
        * (1 + (computePenalties pw s.roughness (mergeConfig s.config p).vessel
            (mergeConfig s.config p).speedKnots).fuelPenalty / 100) :=
  ⟨rfl, rfl, rfl, rfl, rfl, rfl, rfl, rfl, rfl, rfl, rfl, rfl, rfl⟩

/-- Claim C5: from any engine state (in particular any state reached by
advances and reconfigures), `reset` produces `day = 0`, roughness equal to the
baseline of the configured vessel, `coatingHealth = 100`, all cumulative fields
0, and the configuration unchanged. -/
theorem c5_reset_baseline (pw : ℚ → ℚ) (s : SimulationState) :
    (reset pw s).day = 0 ∧
    (reset pw s).roughness = s.config.vessel.baseRoughness ∧
    (reset pw s).coatingHealth = 100 ∧
    (reset pw s).emissions = 0 ∧
    (reset pw s).emissionsClean = 0 ∧
    (reset pw s).emissionsPenalty = 0 ∧
    (reset pw s).fuelCostClean = 0 ∧
    (reset pw s).fuelCostPenalty = 0 ∧
    (reset pw s).fuelCostTotal = 0 ∧
    (reset pw s).config = s.config :=
  ⟨rfl, rfl, rfl, rfl, rfl, rfl, rfl, rfl, rfl, rfl⟩

/-- Claim C7: a `tick` of `d` real seconds advances `day` by
`d * simSpeed` simulated days, grows roughness by
`foulingRate * simDays * coatingFactor` with
`coatingFactor = 1 + (1 - coatingHealth/100) * 0.5`, and decays coating health
to `max 0 (coatingHealth - 0.05 * simDays)`. -/
theorem c7_tick_formulas (pw : ℚ → ℚ) (s : SimulationState) (d : ℚ) (hd : 0 ≤ d) :
    (tick pw s d).day - s.day = d * s.config.simSpeed ∧
    (tick pw s d).roughness
      = s.roughness + s.config.vessel.foulingRate * (d * s.config.simSpeed)
        * (1 + (1 - s.coatingHealth / 100) * 0.5) ∧
    (tick pw s d).coatingHealth
      = max 0 (s.coatingHealth - 0.05 * (d * s.config.simSpeed)) := by
  refine ⟨?_, ?_, ?_⟩
  · rw [tick_day, simDays_eq]; ring
  · rw [tick_roughness, tickRoughness, simDays_eq]
  · rw [tick_coatingHealth, simDays_eq]

/-- Witness for C7 at the default construction and a 2-second step. -/
theorem c7_tick_formulas_witness :
    0 ≤ (2:ℚ) ∧
    ((tick (fun x => x) (mkSimulation (fun x => x) {}) 2).day
        - (mkSimulation (fun x => x) {}).day
        = 2 * (mkSimulation (fun x => x) {}).config.simSpeed ∧
      (tick (fun x => x) (mkSimulation (fun x => x) {}) 2).roughness
        = (mkSimulation (fun x => x) {}).roughness
          + (mkSimulation (fun x => x) {}).config.vessel.foulingRate
            * (2 * (mkSimulation (fun x => x) {}).config.simSpeed)
            * (1 + (1 - (mkSimulation (fun x => x) {}).coatingHealth / 100) * 0.5) ∧
      (tick (fun x => x) (mkSimulation (fun x => x) {}) 2).coatingHealth
        = max 0 ((mkSimulation (fun x => x) {}).coatingHealth
            - 0.05 * (2 * (mkSimulation (fun x => x) {}).config.simSpeed))) :=
  ⟨by norm_num, c7_tick_formulas (fun x => x) (mkSimulation (fun x => x) {}) 2 (by norm_num)⟩

/-- Claim C8: on any reachable state, a `tick` with elapsed time 0 is the
identity on the whole state record. -/
theorem c8_zero_advance (pw : ℚ → ℚ) (p : PartialConfig) (ops : List Op) :
    tick pw (runOps pw (mkSimulation pw p) ops) 0 = runOps pw (mkSimulation pw p) ops :=
  tick_zero pw _ (consistent_runOps pw ops _ (consistent_buildInitialState pw _))

/-- Claim C9: every catalog vessel has strictly positive reference speed, hull
length, base fuel consumption and base roughness; in particular the divisor
`vessel.referenceSpeed` used by `computePenalties` is never zero for a catalog
vessel. -/
theorem c9_catalog_positive (v : VesselType) (hv : v ∈ VESSEL_TYPES) :
    0 < v.referenceSpeed ∧ 0 < v.hullLength ∧ 0 < v.baseFuelConsumption ∧
    0 < v.baseRoughness ∧ v.referenceSpeed ≠ 0 := by
  obtain ⟨h1, h2, h3, h4, _⟩ := mem_VESSEL_TYPES_pos v hv
  exact ⟨h1, h2, h3, h4, ne_of_gt h1⟩

/-- Witness for C9 at the Panamax catalog entry. -/
theorem c9_catalog_positive_witness :
    panamax_bulker ∈ VESSEL_TYPES ∧
    (0 < panamax_bulker.referenceSpeed ∧ 0 < panamax_bulker.hullLength ∧
     0 < panamax_bulker.baseFuelConsumption ∧ 0 < panamax_bulker.baseRoughness ∧
     panamax_bulker.referenceSpeed ≠ 0) :=
  ⟨by simp [VESSEL_TYPES], c9_catalog_positive panamax_bulker (by simp [VESSEL_TYPES])⟩

/-- Claim C6 (amended): the penalty model is the pure function
`dragPenalty = fuelPenalty = max 0 (deltaAHR > 0 ? 0.5 * pow(deltaAHR, 0.67) : 0)`
with `deltaAHR = max 0 (roughness - baseRoughness)`, and
`cleanFuelTonnes = baseFuelConsumption * (speed / referenceSpeed)^3`; at the
Panamax profile, roughness 200 and operating speed equal to reference speed it
gives `dragPenalty = fuelPenalty = 0.5 * pow(100, 0.67)` (about 10.94, not the
10.77 of the frozen claim), `cleanFuelTonnes = 35` and
`dailyFuelTonnes = 35 * (1 + 0.5 * pow(100, 0.67) / 100)`.  The hypotheses
pin `pw 100` inside the rational enclosure `[21.87, 21.88]` of the true
`100^0.67 = 21.8776...`; the first two conjuncts certify that enclosure
exactly, via `(2187/100)^100 < 100^67 < (2188/100)^100` (the frozen figure
10.77 comes from `0.5 * 100^(2/3) = 10.772`, a different exponent). -/
theorem c6_penalty_model (pw : ℚ → ℚ) (r sp : ℚ) (v : VesselType)
    (hlo : 2187/100 ≤ pw 100) (hhi : pw 100 ≤ 2188/100) :
    ((2187/100 : ℚ)) ^ (100:ℕ) < 10 ^ (134:ℕ) ∧
    ((10:ℚ)) ^ (134:ℕ) < ((2188/100 : ℚ)) ^ (100:ℕ) ∧
    (computePenalties pw r v sp).dragPenalty
      = max 0 (if 0 < max 0 (r - v.baseRoughness)
          then 0.5 * pw (max 0 (r - v.baseRoughness)) else 0) ∧
    (computePenalties pw r v sp).fuelPenalty = (computePenalties pw r v sp).dragPenalty ∧
    (computePenalties pw r v sp).cleanFuelTonnes
      = v.baseFuelConsumption * (sp / v.referenceSpeed) ^ 3 ∧
    (computePenalties pw 200 panamax_bulker panamax_bulker.referenceSpeed).dragPenalty
      = 0.5 * pw 100 ∧
    (computePenalties pw 200 panamax_bulker panamax_bulker.referenceSpeed).fuelPenalty
      = 0.5 * pw 100 ∧
    (computePenalties pw 200 panamax_bulker panamax_bulker.referenceSpeed).cleanFuelTonnes
      = 35 ∧
    (computePenalties pw 200 panamax_bulker panamax_bulker.referenceSpeed).cleanFuelTonnes
      * (1 + (computePenalties pw 200 panamax_bulker panamax_bulker.referenceSpeed).fuelPenalty / 100)
      = 35 * (1 + 0.5 * pw 100 / 100) ∧
    2187/200 ≤ (computePenalties pw 200 panamax_bulker panamax_bulker.referenceSpeed).dragPenalty ∧
    (computePenalties pw 200 panamax_bulker panamax_bulker.referenceSpeed).dragPenalty ≤ 547/50 := by
  have hp0 : (0:ℚ) ≤ 0.5 * pw 100 := by linarith
  have e1 : max (0:ℚ) (200 - panamax_bulker.baseRoughness) = 100 := by
    norm_num [panamax_bulker]
  have hdrag : (computePenalties pw 200 panamax_bulker panamax_bulker.referenceSpeed).dragPenalty
      = 0.5 * pw 100 := by
    rw [computePenalties_dragPenalty, e1, if_pos (by norm_num : (0:ℚ) < 100)]
    exact max_eq_right hp0
  have hfuel : (computePenalties pw 200 panamax_bulker panamax_bulker.referenceSpeed).fuelPenalty
      = 0.5 * pw 100 := by
    rw [computePenalties_fuelPenalty, e1, if_pos (by norm_num : (0:ℚ) < 100)]
    exact max_eq_right hp0
  have hclean : (computePenalties pw 200 panamax_bulker panamax_bulker.referenceSpeed).cleanFuelTonnes
      = 35 := by
    rw [computePenalties_cleanFuelTonnes]
    norm_num [panamax_bulker]
  refine ⟨by norm_num, by norm_num, computePenalties_dragPenalty pw r v sp, rfl,
    computePenalties_cleanFuelTonnes pw r v sp, hdrag, hfuel, hclean, ?_, ?_, ?_⟩
  · rw [hclean, hfuel]
  · rw [hdrag]; linarith
  · rw [hdrag]; linarith

/-- Witness for the amended C6 with the constant rational model
`pow(x, 0.67) := 21.877` (matching the true `100^0.67 = 21.8776...` inside the
certified enclosure at 100), a generic evaluation point and the Panamax
instance. -/
theorem c6_penalty_model_witness :
    2187/100 ≤ (21877/1000 : ℚ) ∧ (21877/1000 : ℚ) ≤ 2188/100 ∧
    (((2187/100 : ℚ)) ^ (100:ℕ) < 10 ^ (134:ℕ) ∧
    ((10:ℚ)) ^ (134:ℕ) < ((2188/100 : ℚ)) ^ (100:ℕ) ∧
    (computePenalties (fun _ => (21877/1000 : ℚ)) 150 yacht 10).dragPenalty
      = max 0 (if 0 < max 0 (150 - yacht.baseRoughness)
          then 0.5 * (21877/1000 : ℚ) else 0) ∧
    (computePenalties (fun _ => (21877/1000 : ℚ)) 150 yacht 10).fuelPenalty
      = (computePenalties (fun _ => (21877/1000 : ℚ)) 150 yacht 10).dragPenalty ∧
    (computePenalties (fun _ => (21877/1000 : ℚ)) 150 yacht 10).cleanFuelTonnes
      = yacht.baseFuelConsumption * (10 / yacht.referenceSpeed) ^ 3 ∧
    (computePenalties (fun _ => (21877/1000 : ℚ)) 200 panamax_bulker panamax_bulker.referenceSpeed).dragPenalty
      = 0.5 * (21877/1000 : ℚ) ∧
    (computePenalties (fun _ => (21877/1000 : ℚ)) 200 panamax_bulker panamax_bulker.referenceSpeed).fuelPenalty
      = 0.5 * (21877/1000 : ℚ) ∧
    (computePenalties (fun _ => (21877/1000 : ℚ)) 200 panamax_bulker panamax_bulker.referenceSpeed).cleanFuelTonnes
      = 35 ∧
    (computePenalties (fun _ => (21877/1000 : ℚ)) 200 panamax_bulker panamax_bulker.referenceSpeed).cleanFuelTonnes
      * (1 + (computePenalties (fun _ => (21877/1000 : ℚ)) 200 panamax_bulker panamax_bulker.referenceSpeed).fuelPenalty / 100)
      = 35 * (1 + 0.5 * (21877/1000 : ℚ) / 100) ∧
    2187/200 ≤ (computePenalties (fun _ => (21877/1000 : ℚ)) 200 panamax_bulker panamax_bulker.referenceSpeed).dragPenalty ∧
    (computePenalties (fun _ => (21877/1000 : ℚ)) 200 panamax_bulker panamax_bulker.referenceSpeed).dragPenalty
      ≤ 547/50) :=
  ⟨by norm_num, by norm_num,
    c6_penalty_model (fun _ => (21877/1000 : ℚ)) 150 10 yacht (by norm_num) (by norm_num)⟩

/-- Counterexample to C6 as frozen: the frozen claim puts the Panamax
`dragPenalty` at about 10.77 (the value of `0.5 * 100^(2/3)`).  The first
conjunct certifies `21.87 < 100^0.67` exactly (`(2187/100)^100 < 100^67`), and
already at the under-approximation `pow(100, 0.67) := 21.87` the code computes
`dragPenalty = 10.935 > 10.8`, so the true value `0.5 * 100^0.67 = 10.9388...`
is not about 10.77. -/
theorem c6_counterexample :
    ((2187/100 : ℚ)) ^ (100:ℕ) < 10 ^ (134:ℕ) ∧
    54/5 < (computePenalties (fun _ => (2187/100 : ℚ)) 200 panamax_bulker
        panamax_bulker.referenceSpeed).dragPenalty := by
  constructor
  · norm_num
  · have e1 : max (0:ℚ) (200 - panamax_bulker.baseRoughness) = 100 := by
      norm_num [panamax_bulker]
    rw [computePenalties_dragPenalty, e1, if_pos (by norm_num : (0:ℚ) < 100)]
    rw [max_eq_right (by norm_num : (0:ℚ) ≤ 0.5 * (2187/100 : ℚ))]
    norm_num

/-- Claim C10: if the constructor is given a partial configuration that
supplies a vessel but omits `speedKnots`, the merged configuration keeps the
default speed `DEFAULT_VESSEL.referenceSpeed` (not the supplied vessel
reference speed); the initial state is built at that speed, so the initial
speed ratio differs from 1 whenever the supplied vessel reference speed
differs from the default one. -/
theorem c10_default_speed (pw : ℚ → ℚ) (p : PartialConfig) (v : VesselType)
    (hv : p.vessel = some v) (hs : p.speedKnots = none) :
    (mergeConfig defaultConfig p).speedKnots = DEFAULT_VESSEL.referenceSpeed ∧
    (mergeConfig defaultConfig p).vessel = v ∧
    mkSimulation pw p = buildInitialState pw
      { vessel := v, speedKnots := DEFAULT_VESSEL.referenceSpeed,
        simSpeed := p.simSpeed.getD 1,
        fuelPricePerTonne := p.fuelPricePerTonne.getD DEFAULT_FUEL_PRICE } ∧
    (mkSimulation pw p).dailyFuelTonnes
      = (computePenalties pw v.baseRoughness v DEFAULT_VESSEL.referenceSpeed).cleanFuelTonnes
        * (1 + (computePenalties pw v.baseRoughness v DEFAULT_VESSEL.referenceSpeed).fuelPenalty / 100) ∧
    (v.referenceSpeed ≠ DEFAULT_VESSEL.referenceSpeed →
      (mergeConfig defaultConfig p).speedKnots / v.referenceSpeed ≠ 1) := by
  obtain ⟨pv, ps, psim, ppri⟩ := p
  dsimp only at hv hs
  subst hv; subst hs
  refine ⟨rfl, rfl, rfl, rfl, ?_⟩
  intro hne heq
  rcases eq_or_ne v.referenceSpeed 0 with hz | hz
  · rw [hz, div_zero] at heq
    norm_num at heq
  · rw [div_eq_iff hz, one_mul] at heq
    exact hne heq.symm

/-- Witness for C10: supplying the yacht (reference speed 10) and omitting the
speed keeps the default 13.5-knot speed, so the initial speed ratio is not 1. -/
theorem c10_default_speed_witness :
    (PartialConfig.mk (some yacht) none none none).vessel = some yacht ∧
    (PartialConfig.mk (some yacht) none none none).speedKnots = none ∧
    ((mergeConfig defaultConfig (PartialConfig.mk (some yacht) none none none)).speedKnots
        = DEFAULT_VESSEL.referenceSpeed ∧
      (mergeConfig defaultConfig (PartialConfig.mk (some yacht) none none none)).vessel = yacht ∧
      mkSimulation (fun x => x) (PartialConfig.mk (some yacht) none none none)
        = buildInitialState (fun x => x)
          { vessel := yacht, speedKnots := DEFAULT_VESSEL.referenceSpeed,
            simSpeed := (none : Option ℚ).getD 1,
            fuelPricePerTonne := (none : Option ℚ).getD DEFAULT_FUEL_PRICE } ∧
      (mkSimulation (fun x => x) (PartialConfig.mk (some yacht) none none none)).dailyFuelTonnes
        = (computePenalties (fun x => x) yacht.baseRoughness yacht DEFAULT_VESSEL.referenceSpeed).cleanFuelTonnes
          * (1 + (computePenalties (fun x => x) yacht.baseRoughness yacht DEFAULT_VESSEL.referenceSpeed).fuelPenalty / 100) ∧
      (yacht.referenceSpeed ≠ DEFAULT_VESSEL.referenceSpeed →
        (mergeConfig defaultConfig (PartialConfig.mk (some yacht) none none none)).speedKnots
          / yacht.referenceSpeed ≠ 1)) :=
  ⟨rfl, rfl,
    c10_default_speed (fun x => x) (PartialConfig.mk (some yacht) none none none) yacht rfl rfl⟩

/-- Claim C1, amended: the original claim omits any sign condition on the
configured time multiplier `simSpeed`; with the multiplier also non-negative
(and a catalog vessel, non-negative operating speed, fuel price and elapsed
seconds), every trajectory of `tick` steps is monotone in the claimed
directions and coating health stays inside [0, 100]. -/
theorem c1_monotone (pw : ℚ → ℚ) (p : PartialConfig) (ds : List ℚ)
    (hv : (mergeConfig defaultConfig p).vessel ∈ VESSEL_TYPES)
    (hsp : 0 ≤ (mergeConfig defaultConfig p).speedKnots)
    (hfp : 0 ≤ (mergeConfig defaultConfig p).fuelPricePerTonne)
    (hm : 0 ≤ (mergeConfig defaultConfig p).simSpeed)
    (hd : ∀ d ∈ ds, 0 ≤ d) :
    List.Chain' StateLE (traj pw (mkSimulation pw p) ds) ∧
    ∀ t ∈ traj pw (mkSimulation pw p) ds,
      0 ≤ t.coatingHealth ∧ t.coatingHealth ≤ 100 := by
  have hpos := mem_VESSEL_TYPES_pos _ hv
  have hg : GoodCfg (mkSimulation pw p).config :=
    ⟨hpos.2.2.2.2, hpos.1, hpos.2.2.1.le, hsp, hm, hfp⟩
  exact traj_chain pw (mkSimulation pw p) ds hg
    (by show (0:ℚ) ≤ 100; norm_num) (by show (100:ℚ) ≤ 100; norm_num) hd

/-- Counterexample to C1 as stated: all the hypotheses the claim lists hold
(catalog vessel, non-negative operating speed and fuel price, non-negative
elapsed seconds), yet with the time multiplier overridden to -1 a 1-second
advance strictly decreases `day`. -/
theorem c1_counterexample :
    (mergeConfig defaultConfig (PartialConfig.mk none none (some (-1)) none)).vessel
      ∈ VESSEL_TYPES ∧
    0 ≤ (mergeConfig defaultConfig (PartialConfig.mk none none (some (-1)) none)).speedKnots ∧
    0 ≤ (mergeConfig defaultConfig (PartialConfig.mk none none (some (-1)) none)).fuelPricePerTonne ∧
    (tick (fun x => x)
        (mkSimulation (fun x => x) (PartialConfig.mk none none (some (-1)) none)) 1).day
      < (mkSimulation (fun x => x) (PartialConfig.mk none none (some (-1)) none)).day := by
  refine ⟨?_, ?_, ?_, ?_⟩
  · show DEFAULT_VESSEL ∈ VESSEL_TYPES
    rw [DEFAULT_VESSEL_eq]
    simp [VESSEL_TYPES]
  · show (0:ℚ) ≤ DEFAULT_VESSEL.referenceSpeed
    rw [DEFAULT_VESSEL_eq]
    norm_num [panamax_bulker]
  · show (0:ℚ) ≤ DEFAULT_FUEL_PRICE
    norm_num [DEFAULT_FUEL_PRICE]
  · rw [tick_day, simDays_eq]
    show (0:ℚ) + 1 * (-1) < 0
    norm_num

/-- Witness for the amended C1: default construction, one 1-second step. -/
theorem c1_monotone_witness :
    ((mergeConfig defaultConfig {}).vessel ∈ VESSEL_TYPES) ∧
    (0 ≤ (mergeConfig defaultConfig {}).speedKnots) ∧
    (0 ≤ (mergeConfig defaultConfig {}).fuelPricePerTonne) ∧
    (0 ≤ (mergeConfig defaultConfig {}).simSpeed) ∧
    (∀ d ∈ [(1:ℚ)], 0 ≤ d) ∧
    (List.Chain' StateLE (traj (fun x => x) (mkSimulation (fun x => x) {}) [1]) ∧
      ∀ t ∈ traj (fun x => x) (mkSimulation (fun x => x) {}) [1],
        0 ≤ t.coatingHealth ∧ t.coatingHealth ≤ 100) := by
  have h1 : (mergeConfig defaultConfig {}).vessel ∈ VESSEL_TYPES := by
    show DEFAULT_VESSEL ∈ VESSEL_TYPES
    rw [DEFAULT_VESSEL_eq]
    simp [VESSEL_TYPES]
  have h2 : 0 ≤ (mergeConfig defaultConfig {}).speedKnots := by
    show (0:ℚ) ≤ DEFAULT_VESSEL.referenceSpeed
    rw [DEFAULT_VESSEL_eq]
    norm_num [panamax_bulker]
  have h3 : 0 ≤ (mergeConfig defaultConfig {}).fuelPricePerTonne := by
    show (0:ℚ) ≤ DEFAULT_FUEL_PRICE
    norm_num [DEFAULT_FUEL_PRICE]
  have h4 : 0 ≤ (mergeConfig defaultConfig {}).simSpeed := by
    show (0:ℚ) ≤ 1
    norm_num
  have h5 : ∀ d ∈ [(1:ℚ)], 0 ≤ d := by
    intro d hd
    simp only [List.mem_singleton] at hd
    subst hd
    norm_num
  exact ⟨h1, h2, h3, h4, h5, c1_monotone (fun x => x) {} [1] h1 h2 h3 h4 h5⟩

/-- Claim C2 names a code bug: the source never guards `tick` against a
negative elapsed time, so a -1-second advance from the default initial state
strictly decreases `day`, contradicting the mandated no-op-or-reject
behaviour. -/
theorem c2_negative_advance_decreases_day :
    (tick (fun x => x) (mkSimulation (fun x => x) {}) (-1)).day
      < (mkSimulation (fun x => x) {}).day := by
  rw [tick_day, simDays_eq]
  show (0:ℚ) + -1 * 1 < 0
  norm_num
